import Mathlib

/-!
Shallow embedding of the Hospital Management System (src/app.py).

The four SQLite tables created by init_db are modelled as lists of rows in
insertion (rowid) order.  Each Flask route handler that mutates state is
modelled as a pure function from the committed database (plus the form /
session inputs) to the new committed database together with an abstract
response value.  SQLite commit points are followed: statements executed
after the last commit and abandoned on an IntegrityError are rolled back
(the Python sqlite3 connection discards the open transaction when the
per-request connection is closed).

Conventions:
- AUTOINCREMENT ids are modelled as (max id so far) + 1.
- Python falsiness of a missing/empty form field is modelled by the empty
  string; str.strip is modelled by pyStrip below.
- sha256 hashing (hash_pwd) is modelled abstractly by an injective tagging
  function; none of the verified properties depend on the hash algorithm.
- SQLite LIKE is case-insensitive on ASCII letters; the handler builds its
  pattern by interpolating the raw search term between two percent signs,
  so percent signs and underscores inside the term act as wildcards.  The
  matcher is modelled on case-folded character lists (Char.toLower lowers
  exactly the ASCII uppercase range).
-/

/-- Row of the users table: id INTEGER PRIMARY KEY AUTOINCREMENT,
username TEXT UNIQUE, password TEXT, role TEXT. -/
structure UserRow where
  id : Nat
  username : String
  password : String
  role : String
  deriving Repr, DecidableEq

/-- Row of the doctors table: id, name, specialization, availability
(DEFAULT 'Available'). -/
structure DoctorRow where
  id : Nat
  name : String
  specialization : String
  availability : String
  deriving Repr, DecidableEq

/-- Row of the doctor_credentials table: id, doctor_id, username TEXT UNIQUE,
password. -/
structure CredentialRow where
  id : Nat
  doctor_id : Nat
  username : String
  password : String
  deriving Repr, DecidableEq

/-- Row of the appointments table: id, patient_id, doctor_id, date,
status (DEFAULT 'Booked'), diagnosis (nullable), notes (nullable). -/
structure AppointmentRow where
  id : Nat
  patient_id : Nat
  doctor_id : Nat
  date : String
  status : String
  diagnosis : Option String
  notes : Option String
  deriving Repr, DecidableEq

/-- The committed database state: the four tables of init_db, rows kept in
rowid (insertion) order. -/
structure DB where
  users : List UserRow
  doctors : List DoctorRow
  doctor_credentials : List CredentialRow
  appointments : List AppointmentRow
  deriving Repr, DecidableEq

/-- Model of hash_pwd (app.py line 12): sha256 hex digest, abstracted as an
injective tagging function.  No verified property depends on the concrete
hash, only on equality/inequality of hashes of equal/unequal inputs. -/
def hash_pwd (p : String) : String := "sha256:" ++ p

/-- Model of Python str.strip (no argument): remove leading and trailing
whitespace.  Written over the character list so that it evaluates by kernel
reduction. -/
def pyStrip (s : String) : String :=
  ⟨((s.data.dropWhile Char.isWhitespace).reverse.dropWhile Char.isWhitespace).reverse⟩

/-- ASCII-lowered character list of a string, modelling the
case-insensitivity of SQLite LIKE (which folds exactly the ASCII letters). -/
def lowerList (s : String) : List Char := s.data.map Char.toLower

/-- Decision procedure for list containment (needle occurs as a contiguous
sublist of the haystack), modelling LIKE with a percent sign on both ends. -/
def containsSub (needle : List Char) : List Char → Bool
  | [] => needle.isEmpty
  | c :: t => needle.isPrefixOf (c :: t) || containsSub needle t

/-- Next AUTOINCREMENT id for a list of existing ids. -/
def nextId (ids : List Nat) : Nat := ids.foldr max 0 + 1

/-- Next id the users table would assign. -/
def DB.nextUserId (db : DB) : Nat := nextId (db.users.map fun r => r.id)

/-- Next id the doctors table would assign. -/
def DB.nextDoctorId (db : DB) : Nat := nextId (db.doctors.map fun d => d.id)

/-- Next id the doctor_credentials table would assign. -/
def DB.nextCredId (db : DB) : Nat := nextId (db.doctor_credentials.map fun c => c.id)

/-- Next id the appointments table would assign. -/
def DB.nextApptId (db : DB) : Nat := nextId (db.appointments.map fun a => a.id)

/-- Outcome of a registration-style handler: success redirect, the
missing-required-field re-render, or the duplicate-username re-render. -/
inductive RegResult where
  | ok
  | fieldErr (msg : String)
  | dupErr (msg : String)
  deriving Repr, DecidableEq

/-- Outcome of the login handler: session started for a user id, or an
error message re-rendered on the login page. -/
inductive LoginResult where
  | ok (uid : Nat)
  | err (msg : String)
  deriving Repr, DecidableEq

/-- Abstract HTTP-level response of the admin/doctor handlers. -/
inductive Resp where
  | page
  | redirect (target : String)
  | notFound (msg : String)
  | forbidden
  deriving Repr, DecidableEq

/-- Discriminator for the 404-equivalent responses. -/
def Resp.isNotFound : Resp → Bool
  | .notFound _ => true
  | _ => false

/-- Model of login (app.py lines 101-114), POST branch.  The handler first
rejects a missing username or password, then performs the single combined
lookup SELECT * FROM users WHERE username=? AND password=?; a match starts
the session, any mismatch (unknown username or wrong password) reaches the
same final return with the generic message. -/
def login (db : DB) (u p : String) : LoginResult :=
  if u = "" ∨ p = "" then .err "Username and password required"
  else
    match db.users.find? (fun r => r.username == u && r.password == hash_pwd p) with
    | some row => .ok row.id
    | none => .err "Invalid credentials"

/-- Model of current_user (app.py lines 75-79): a falsy session uid (absent,
or the Python-falsy 0) yields None, otherwise the users row with that id is
looked up. -/
def current_user (db : DB) (sessionUid : Option Nat) : Option UserRow :=
  match sessionUid with
  | none => none
  | some uid => if uid = 0 then none else db.users.find? fun r => r.id == uid

/-- Model of the login_required decorator (app.py lines 81-87): when
current_user resolves to None the wrapped handler is not invoked and the
response is a redirect to the login page; otherwise the handler runs. -/
def login_required (db : DB) (sessionUid : Option Nat)
    (handler : UserRow → DB × Resp) : DB × Resp :=
  match current_user db sessionUid with
  | none => (db, .redirect "/login")
  | some u => handler u

/-- Model of register (app.py lines 116-132), POST branch: patient
self-registration.  A missing field is rejected without trimming (the
source tests only Python truthiness of the raw form values); otherwise the
INSERT succeeds unless the UNIQUE constraint on username fires, which is
reported as "Username taken" with no state change. -/
def register (db : DB) (u p : String) : DB × RegResult :=
  if u = "" ∨ p = "" then (db, .fieldErr "Username and password required")
  else if db.users.any (fun r => r.username == u) then (db, .dupErr "Username taken")
  else
    let row : UserRow := { id := db.nextUserId, username := u, password := hash_pwd p, role := "patient" }
    ({ db with users := db.users ++ [row] }, .ok)

/-- Model of register_doctor (app.py lines 365-390), POST branch: doctor
self-registration.  Raw (untrimmed) truthiness check on all four fields;
then INSERT the users row and commit; then INSERT a doctors row whose id is
forced to the new user id.  A duplicate username makes the first insert
fail with no state change; a doctors row already holding that id makes the
second insert fail after the users insert was already committed. -/
def register_doctor (db : DB) (u p name spec : String) : DB × RegResult :=
  if u = "" ∨ p = "" ∨ name = "" ∨ spec = "" then (db, .fieldErr "All fields required")
  else if db.users.any (fun r => r.username == u) then (db, .dupErr "Username taken")
  else
    let uid := db.nextUserId
    let urow : UserRow := { id := uid, username := u, password := hash_pwd p, role := "doctor" }
    let db1 : DB := { db with users := db.users ++ [urow] }
    if db1.doctors.any (fun d => d.id == uid) then (db1, .dupErr "Username taken")
    else
      let drow : DoctorRow := { id := uid, name := name, specialization := spec, availability := "Available" }
      ({ db1 with doctors := db1.doctors ++ [drow] }, .ok)

/-- Model of add_doctor (app.py lines 393-440), POST branch: admin doctor
provisioning.  All four fields are trimmed and checked; the doctors row is
inserted and committed; the selected doctor id is the first doctors row
matching the submitted name and specialization; then the credentials and
users inserts run in one transaction that is rolled back (to the state
with the committed doctors row) when either UNIQUE username constraint
fires, reported as "Username already exists". -/
def add_doctor (db : DB) (name0 spec0 doc_user0 doc_pass0 : String) : DB × RegResult :=
  let name := pyStrip name0
  let spec := pyStrip spec0
  let doc_user := pyStrip doc_user0
  let doc_pass := pyStrip doc_pass0
  if name = "" ∨ spec = "" ∨ doc_user = "" ∨ doc_pass = "" then
    (db, .fieldErr "All fields required")
  else
    let drow : DoctorRow := { id := db.nextDoctorId, name := name, specialization := spec, availability := "Available" }
    let db1 : DB := { db with doctors := db.doctors ++ [drow] }
    let doctor_id :=
      ((db1.doctors.find? fun d => d.name == name && d.specialization == spec).map
        fun d => d.id).getD 0
    if db1.doctor_credentials.any (fun c => c.username == doc_user) then
      (db1, .dupErr "Username already exists")
    else
      let crow : CredentialRow := { id := db1.nextCredId, doctor_id := doctor_id, username := doc_user, password := hash_pwd doc_pass }
      let db2 : DB := { db1 with doctor_credentials := db1.doctor_credentials ++ [crow] }
      if db2.users.any (fun r => r.username == doc_user) then
        (db1, .dupErr "Username already exists")
      else
        let urow : UserRow := { id := db2.nextUserId, username := doc_user, password := hash_pwd doc_pass, role := "doctor" }
        ({ db2 with users := db2.users ++ [urow] }, .ok)

/-- Row inserted by the booking INSERT of patient (app.py lines 283-287),
with the appointments schema defaults for status, diagnosis and notes. -/
def bookedRow (db : DB) (uid D : Nat) (date : String) : AppointmentRow :=
  { id := db.nextApptId, patient_id := uid, doctor_id := D, date := date, status := "Booked", diagnosis := none, notes := none }

/-- Model of the booking branch of patient (app.py lines 271-295), POST:
look up the availability of the doctor row with the submitted id; when the
row exists, its availability equals exactly "Available" and the date field
is truthy (non-empty), INSERT one appointments row for the logged-in
patient with the schema defaults status = 'Booked' and NULL
diagnosis/notes; otherwise do nothing. -/
def patient_post (db : DB) (uid D : Nat) (date : String) : DB :=
  match db.doctors.find? (fun d => d.id == D) with
  | some doc =>
      if doc.availability = "Available" ∧ date ≠ "" then
        { db with appointments := db.appointments ++ [bookedRow db uid D date] }
      else db
  | none => db

/-- Model of the POST branch of doctor (app.py lines 297-329): the submitted
diagnosis and notes are stripped, then UPDATE appointments SET diagnosis=?,
notes=? WHERE id=? AND doctor_id=? writes exactly the rows matching both
the appointment id and the calling doctor id (zero rows when none match;
no error is raised).  The idempotent ALTER TABLE column-add is invisible
here because the modelled schema already has both columns. -/
def doctor_post (db : DB) (docUid aid : Nat) (diagnosis notes : String) : DB :=
  { db with appointments := db.appointments.map fun a =>
      if a.id == aid && a.doctor_id == docUid then
        { a with diagnosis := some (pyStrip diagnosis), notes := some (pyStrip notes) }
      else a }

/-- Model of doc_done (app.py lines 331-353), POST branch: same scoping as
doctor_post, additionally forcing status to 'Completed' in the same
UPDATE.  The submitted diagnosis and notes are stripped before the write. -/
def doc_done (db : DB) (docUid aid : Nat) (diagnosis notes : String) : DB :=
  { db with appointments := db.appointments.map fun a =>
      if a.id == aid && a.doctor_id == docUid then
        { a with status := "Completed", diagnosis := some (pyStrip diagnosis), notes := some (pyStrip notes) }
      else a }

/-- Model of edit_doctor (app.py lines 213-233): 404-equivalent when no
doctors row has the path id; otherwise (POST) the row is updated with the
trimmed name/specialization and the raw availability value, then redirect. -/
def edit_doctor (db : DB) (did : Nat) (name0 spec0 avail : String) : DB × Resp :=
  match db.doctors.find? (fun d => d.id == did) with
  | none => (db, .notFound "Doctor not found")
  | some _ =>
      ({ db with doctors := db.doctors.map fun d =>
          if d.id == did then
            { d with name := pyStrip name0, specialization := pyStrip spec0, availability := avail }
          else d }, .redirect "/admin")

/-- Model of delete_doctor (app.py lines 235-246), first statement: DELETE
FROM appointments WHERE doctor_id=?. -/
def delete_doctor_appointments (db : DB) (did : Nat) : DB :=
  { db with appointments := db.appointments.filter fun a => !(a.doctor_id == did) }

/-- Model of delete_doctor (app.py lines 235-246), second statement: DELETE
FROM doctors WHERE id=?. -/
def delete_doctor_row (db : DB) (did : Nat) : DB :=
  { db with doctors := db.doctors.filter fun d => !(d.id == did) }

/-- Model of delete_doctor (app.py lines 235-246): the related appointments
are deleted first, then the doctors row, then one commit. -/
def delete_doctor (db : DB) (did : Nat) : DB :=
  delete_doctor_row (delete_doctor_appointments db did) did

/-- Model of admin_update_appointment (app.py lines 248-258): UPDATE
appointments SET status=? WHERE id=?, then redirect to /admin.  There is no
existence check on the appointment id. -/
def admin_update_appointment (db : DB) (aid : Nat) (status : String) : DB × Resp :=
  ({ db with appointments := db.appointments.map fun a =>
      if a.id == aid then { a with status := status } else a }, .redirect "/admin")

/-- Model of admin_delete_appointment (app.py lines 260-269): DELETE FROM
appointments WHERE id=?, then redirect to /admin.  There is no existence
check on the appointment id. -/
def admin_delete_appointment (db : DB) (aid : Nat) : DB × Resp :=
  ({ db with appointments := db.appointments.filter fun a => !(a.id == aid) },
   .redirect "/admin")

/-- Prefix step of the LIKE matcher: match one percent-free pattern segment
(literal characters, with underscore matching any one character) against
the start of s, returning the remaining suffix on success.  Both sides are
assumed already case-folded. -/
def segMatchesAt : List Char → List Char → Option (List Char)
  | [], s => some s
  | _ :: _, [] => none
  | c :: seg, x :: s => if c = '_' ∨ c = x then segMatchesAt seg s else none

/-- Search step of the LIKE matcher: the earliest position at which the
segment matches, returning the suffix after the match.  Because every
segment has a fixed match length, leftmost search is complete for LIKE. -/
def searchSeg (seg : List Char) : List Char → Option (List Char)
  | [] => segMatchesAt seg []
  | x :: s =>
      match segMatchesAt seg (x :: s) with
      | some r => some r
      | none => searchSeg seg s

/-- Match the percent-separated segments of a LIKE pattern that starts and
ends with a percent wildcard: each segment must occur, in order, with
arbitrary (possibly empty) gaps before, between and after them. -/
def matchSegs : List (List Char) → List Char → Bool
  | [], _ => true
  | seg :: rest, s =>
      match searchSeg seg s with
      | some r => matchSegs rest r
      | none => false

/-- Split a LIKE pattern body at the percent wildcards (empty segments are
kept; they match trivially, as LIKE treats consecutive percent signs). -/
def splitPercent : List Char → List (List Char)
  | [] => [[]]
  | c :: rest =>
      if c = '%' then [] :: splitPercent rest
      else
        match splitPercent rest with
        | [] => [[c]]
        | seg :: segs => (c :: seg) :: segs

/-- Model of s LIKE pattern for the pattern the handler builds by string
interpolation (app.py lines 164-167): a percent sign, the raw search term,
a percent sign.  Both sides are ASCII-case-folded (SQLite LIKE is
case-insensitive on ASCII); the surrounding percent signs let the match
start and end anywhere; percent signs and underscores inside the term are
live wildcards (any sequence / any single character), since the term is
interpolated unescaped. -/
def likeMatchCI (t s : String) : Bool :=
  matchSegs (splitPercent (lowerList t)) (lowerList s)

/-- Model of the doctors-search part of admin (app.py lines 158-169): the
query-string term is stripped; a non-empty term filters doctors by
SELECT * FROM doctors WHERE name LIKE ? OR specialization LIKE ? with the
term enclosed in percent signs, an empty term returns all doctors rows. -/
def admin_doctor_search (db : DB) (doc_search : String) : List DoctorRow :=
  let t := pyStrip doc_search
  if t = "" then db.doctors
  else db.doctors.filter fun d => likeMatchCI t d.name || likeMatchCI t d.specialization

/-- Specification-side reading of "contains t as a case-insensitive
substring (partial match at both ends)". -/
def containsCI (t s : String) : Prop :=
  ∃ pre post, pre ++ lowerList t ++ post = lowerList s

/-- Empty database (all four tables empty). -/
def emptyDB : DB :=
  { users := [], doctors := [], doctor_credentials := [], appointments := [] }

/-- Concrete user row for login/registration scenarios. -/
def userBob : UserRow :=
  { id := 1, username := "bob", password := hash_pwd "pw", role := "patient" }

/-- Database with one user row, for concrete login/registration scenarios. -/
def dbBob : DB :=
  { users := [userBob], doctors := [], doctor_credentials := [], appointments := [] }

/-- An available doctor row. -/
def docAnn : DoctorRow :=
  { id := 1, name := "Ann", specialization := "Cardiology", availability := "Available" }

/-- Concrete patient user row. -/
def userPat : UserRow :=
  { id := 7, username := "pat", password := hash_pwd "x", role := "patient" }

/-- Database with one available doctor, for concrete booking scenarios. -/
def dbAvail : DB :=
  { users := [userPat], doctors := [docAnn], doctor_credentials := [], appointments := [] }

/-- Concrete appointment row (id 1, patient 7, doctor 1). -/
def apptBooked : AppointmentRow :=
  { id := 1, patient_id := 7, doctor_id := 1, date := "2024-05-01", status := "Booked", diagnosis := none, notes := none }

/-- Database with one appointment, for concrete doctor-update scenarios. -/
def dbOneAppt : DB :=
  { users := [], doctors := [], doctor_credentials := [], appointments := [apptBooked] }

/-! Helper lemmas about lists, shared by the claim theorems below. -/

/-- Splitting the length of a list by a Boolean predicate. -/
theorem length_filter_split {α : Type} (p : α → Bool) (l : List α) :
    l.length = (l.filter p).length + (l.filter fun a => !(p a)).length := by
  induction l with
  | nil => rfl
  | cons x xs ih =>
    by_cases hx : p x = true
    · simp [List.filter_cons, hx]; omega
    · have hx2 : p x = false := by simpa using hx
      simp [List.filter_cons, hx2]; omega

/-- Filtering for key value k after removing every key-k element yields
the empty list. -/
theorem filter_eq_key_after_remove {α : Type} (f : α → Nat) (k : Nat) (l : List α) :
    ((l.filter fun a => !(f a == k)).filter fun a => f a == k) = [] := by
  induction l with
  | nil => rfl
  | cons x xs ih =>
    by_cases hx : f x = k
    · simp [List.filter_cons, hx, ih]
    · simp [List.filter_cons, hx, ih]

/-- Mapping a conditional rewrite over a list none of whose elements
satisfies the condition is the identity. -/
theorem map_ite_id {α : Type} (c : α → Bool) (g : α → α) (l : List α)
    (h : ∀ a ∈ l, c a = false) : (l.map fun a => if c a then g a else a) = l := by
  induction l with
  | nil => rfl
  | cons x xs ih =>
    have hx := h x (List.mem_cons_self x xs)
    simp [hx, ih fun a ha => h a (List.mem_cons_of_mem x ha)]

/-- find? with an equality-on-key predicate returns exactly the element with
that key when the mapped keys have no duplicates. -/
theorem find?_key_eq {α : Type} (f : α → Nat) (l : List α) :
    (l.map f).Nodup → ∀ a ∈ l, (l.find? fun x => f x == f a) = some a := by
  induction l with
  | nil => intro _ a ha; cases ha
  | cons x xs ih =>
    intro hnd a ha
    rw [List.map_cons, List.nodup_cons] at hnd
    rcases List.mem_cons.mp ha with rfl | ha2
    · exact List.find?_cons_of_pos _ (by simp)
    · have hne : ¬ ((fun y => f y == f a) x = true) := by
        simp only [beq_iff_eq]
        exact fun he => hnd.1 (he ▸ List.mem_map_of_mem f ha2)
      have step : (List.find? (fun y => f y == f a) (x :: xs)) = List.find? (fun y => f y == f a) xs :=
        List.find?_cons_of_neg xs hne
      rw [step]
      exact ih hnd.2 a ha2

/-- containsSub decides contiguous-sublist containment. -/
theorem containsSub_iff (n h : List Char) : containsSub n h = true ↔ n <:+: h := by
  induction h with
  | nil => simp [containsSub, List.isEmpty_iff]
  | cons c t ih =>
    simp [containsSub, List.isPrefixOf_iff_prefix, ih, List.infix_cons_iff]

/-- Reading off the code point of Char.ofNatAux. -/
theorem toNat_ofNatAux (n : Nat) (h : n.isValidChar) : (Char.ofNatAux n h).toNat = n := rfl

/-- Char.toLower either fixes a character or produces an ASCII lowercase
letter (code point between 97 and 122). -/
theorem toLower_fix_or_lower (c : Char) :
    Char.toLower c = c ∨ 97 ≤ (Char.toLower c).toNat ∧ (Char.toLower c).toNat ≤ 122 := by
  rw [Char.toLower]
  by_cases h : c.toNat ≥ 65 ∧ c.toNat ≤ 90
  · right
    rw [if_pos h]
    have hv : (c.toNat + 32).isValidChar := Or.inl (by omega)
    rw [Char.ofNat, dif_pos hv, toNat_ofNatAux]
    omega
  · left
    rw [if_neg h]

/-- Case-folding neither creates nor removes the LIKE wildcard characters:
a character other than a percent sign or an underscore stays so after
Char.toLower (the wildcards are not letters, and lowering a letter yields a
lowercase letter). -/
theorem toLower_ne_wildcards (c : Char) (h1 : c ≠ '%') (h2 : c ≠ '_') :
    Char.toLower c ≠ '%' ∧ Char.toLower c ≠ '_' := by
  rcases toLower_fix_or_lower c with he | ⟨hl, hu⟩
  · rw [he]
    exact ⟨h1, h2⟩
  · refine ⟨fun he => ?_, fun he => ?_⟩
    · rw [he] at hl
      exact absurd hl (by decide)
    · rw [he] at hl
      exact absurd hl (by decide)

/-- A percent-free pattern body is a single LIKE segment. -/
theorem splitPercent_no_percent (l : List Char) (h : ∀ c ∈ l, c ≠ '%') :
    splitPercent l = [l] := by
  induction l with
  | nil => rfl
  | cons c rest ih =>
    rw [splitPercent, if_neg (h c (by simp)), ih (fun a ha => h a (by simp [ha]))]

/-- On an underscore-free segment, the prefix step of the LIKE matcher is
literal prefix testing. -/
theorem segMatchesAt_no_wild (seg : List Char) (s : List Char)
    (hw : ∀ c ∈ seg, c ≠ '_') : (segMatchesAt seg s).isSome = seg.isPrefixOf s := by
  induction seg generalizing s with
  | nil => cases s <;> rfl
  | cons c seg ih =>
    cases s with
    | nil => rfl
    | cons x s =>
      have hc : c ≠ '_' := hw c (by simp)
      by_cases hcx : c = x
      · subst hcx
        simp [segMatchesAt, List.isPrefixOf, ih s (fun a ha => hw a (by simp [ha]))]
      · simp [segMatchesAt, List.isPrefixOf, hc, hcx]

/-- On an underscore-free segment, the search step of the LIKE matcher
succeeds exactly on literal containment. -/
theorem searchSeg_no_wild (seg : List Char) (hw : ∀ c ∈ seg, c ≠ '_') (s : List Char) :
    (searchSeg seg s).isSome = containsSub seg s := by
  induction s with
  | nil =>
    show (segMatchesAt seg []).isSome = containsSub seg []
    rw [segMatchesAt_no_wild seg [] hw]
    cases seg <;> rfl
  | cons x s ih =>
    have hx := segMatchesAt_no_wild seg (x :: s) hw
    cases h : segMatchesAt seg (x :: s) with
    | some r =>
      have hp : seg.isPrefixOf (x :: s) = true := by rw [← hx, h]; rfl
      simp [searchSeg, containsSub, h, hp]
    | none =>
      have hp : seg.isPrefixOf (x :: s) = false := by rw [← hx, h]; rfl
      simp [searchSeg, containsSub, h, hp, ih]

/-- For search terms free of the LIKE wildcard characters, the LIKE model
coincides with literal case-insensitive containment. -/
theorem likeMatchCI_no_wild (t s : String)
    (hw : ∀ c ∈ t.data, c ≠ '%' ∧ c ≠ '_') :
    likeMatchCI t s = containsSub (lowerList t) (lowerList s) := by
  have hwl : ∀ c ∈ lowerList t, c ≠ '%' ∧ c ≠ '_' := by
    intro c hc
    obtain ⟨c0, hc0, rfl⟩ := List.mem_map.mp hc
    exact toLower_ne_wildcards c0 (hw c0 hc0).1 (hw c0 hc0).2
  have hsegs : matchSegs [lowerList t] (lowerList s)
      = (searchSeg (lowerList t) (lowerList s)).isSome := by
    cases h : searchSeg (lowerList t) (lowerList s) <;> simp [matchSegs, h]
  rw [likeMatchCI, splitPercent_no_percent _ (fun c hc => (hwl c hc).1), hsegs,
    searchSeg_no_wild _ (fun c hc => (hwl c hc).2)]

/-- For wildcard-free search terms, the executable LIKE model agrees with
the specification-side case-insensitive containment predicate. -/
theorem likeMatchCI_no_wild_iff (t s : String)
    (hw : ∀ c ∈ t.data, c ≠ '%' ∧ c ≠ '_') :
    (likeMatchCI t s = true ↔ containsCI t s) := by
  rw [likeMatchCI_no_wild t s hw, containsSub_iff]
  exact Iff.rfl

/-- C4: Deleting doctor D removes exactly the appointments with
doctor_id = D (so exactly N fewer appointment rows remain, where N is the
number of appointments referencing D), leaves zero doctors rows with id D,
leaves the users and doctor_credentials tables unchanged, and is the
sequential composition that deletes the appointments before the doctors
row. -/
theorem delete_doctor_cascade (db : DB) (did : Nat) :
    (delete_doctor db did).appointments
      = db.appointments.filter (fun a => !(a.doctor_id == did)) ∧
    db.appointments.length
      = (delete_doctor db did).appointments.length
        + (db.appointments.filter fun a => a.doctor_id == did).length ∧
    ((delete_doctor db did).doctors.filter fun d => d.id == did) = [] ∧
    (delete_doctor db did).users = db.users ∧
    (delete_doctor db did).doctor_credentials = db.doctor_credentials ∧
    delete_doctor db did = delete_doctor_row (delete_doctor_appointments db did) did := by
  refine ⟨rfl, ?_, ?_, rfl, rfl, rfl⟩
  · have h := length_filter_split (fun a => a.doctor_id == did) db.appointments
    show db.appointments.length
      = (db.appointments.filter fun a => !(a.doctor_id == did)).length
        + (db.appointments.filter fun a => a.doctor_id == did).length
    omega
  · exact filter_eq_key_after_remove (fun d => d.id) did db.doctors

/-- C5 counterexample: doc_done strips surrounding whitespace from the
submitted diagnosis, so the value " flu " is not persisted verbatim. -/
theorem doc_done_strips_counterexample :
    (doc_done dbOneAppt 1 1 " flu " "rest").appointments
      = [{ id := 1, patient_id := 7, doctor_id := 1, date := "2024-05-01", status := "Completed", diagnosis := some "flu", notes := some "rest" }] ∧
    (doc_done dbOneAppt 1 1 " flu " "rest").appointments
      ≠ [{ id := 1, patient_id := 7, doctor_id := 1, date := "2024-05-01", status := "Completed", diagnosis := some " flu ", notes := some "rest" }] := by
  constructor <;> decide

/-- C5 amended: a doc_done submission on an appointment matching the
(appointment id, calling doctor id) pair yields a row with status exactly
"Completed" whose diagnosis and notes equal the submitted values after
stripping surrounding whitespace (in particular, submitted empty strings
persist as empty strings). -/
theorem doc_done_completed_persists (db : DB) (docUid aid : Nat) (d0 n0 : String)
    (a : AppointmentRow) (ha : a ∈ db.appointments) (hid : a.id = aid)
    (hdoc : a.doctor_id = docUid) :
    { a with status := "Completed", diagnosis := some (pyStrip d0), notes := some (pyStrip n0) }
      ∈ (doc_done db docUid aid d0 n0).appointments := by
  have hc : (a.id == aid && a.doctor_id == docUid) = true := by simp [hid, hdoc]
  exact List.mem_map.mpr ⟨a, ha, by simp [hc]⟩

/-- Witness for doc_done_completed_persists at a concrete database. -/
theorem doc_done_completed_persists_witness :
    { apptBooked with status := "Completed", diagnosis := some (pyStrip ""), notes := some (pyStrip "rest") }
      ∈ (doc_done dbOneAppt 1 1 "" "rest").appointments :=
  doc_done_completed_persists dbOneAppt 1 1 "" "rest" apptBooked (by decide) (by decide) (by decide)

/-- C7 counterexample: updating or deleting an appointment whose id is
absent (empty database) responds with a redirect to /admin, not with a
404-equivalent not-found error. -/
theorem admin_unknown_id_counterexample :
    (admin_update_appointment emptyDB 1 "Cancelled").2 = Resp.redirect "/admin" ∧
    (admin_update_appointment emptyDB 1 "Cancelled").2.isNotFound = false ∧
    (admin_delete_appointment emptyDB 1).2 = Resp.redirect "/admin" ∧
    (admin_delete_appointment emptyDB 1).2.isNotFound = false :=
  ⟨rfl, rfl, rfl, rfl⟩

/-- C7 amended: for an unknown doctor id, edit_doctor responds with the
404-equivalent "Doctor not found" and changes nothing; for an unknown
appointment id, admin_update_appointment and admin_delete_appointment
silently affect zero rows and redirect to /admin without any not-found
error. -/
theorem admin_unknown_id_behavior (db : DB) (did aid : Nat) (n0 s0 av st : String)
    (hd : ∀ d ∈ db.doctors, d.id ≠ did)
    (ha : ∀ a ∈ db.appointments, a.id ≠ aid) :
    edit_doctor db did n0 s0 av = (db, .notFound "Doctor not found") ∧
    admin_update_appointment db aid st = (db, .redirect "/admin") ∧
    admin_delete_appointment db aid = (db, .redirect "/admin") := by
  have hfind : db.doctors.find? (fun d => d.id == did) = none := by
    rw [List.find?_eq_none]
    intro d hdm
    simpa using hd d hdm
  refine ⟨?_, ?_, ?_⟩
  · simp [edit_doctor, hfind]
  · have hmap : (db.appointments.map fun a => if a.id == aid then { a with status := st } else a) = db.appointments :=
      map_ite_id _ _ _ (fun a ham => by simpa using ha a ham)
    show ({ db with appointments := db.appointments.map fun a => if a.id == aid then { a with status := st } else a }, Resp.redirect "/admin") = (db, Resp.redirect "/admin")
    rw [hmap]
  · have hfil : db.appointments.filter (fun a => !(a.id == aid)) = db.appointments := by
      rw [List.filter_eq_self]
      intro a ham
      simpa using ha a ham
    show ({ db with appointments := db.appointments.filter fun a => !(a.id == aid) }, Resp.redirect "/admin") = (db, Resp.redirect "/admin")
    rw [hfil]

/-- Witness for admin_unknown_id_behavior at a concrete database. -/
theorem admin_unknown_id_behavior_witness :
    edit_doctor dbBob 5 "n" "s" "Available" = (dbBob, .notFound "Doctor not found") ∧
    admin_update_appointment dbBob 5 "Done" = (dbBob, .redirect "/admin") ∧
    admin_delete_appointment dbBob 5 = (dbBob, .redirect "/admin") :=
  admin_unknown_id_behavior dbBob 5 5 "n" "s" "Available" "Done" (by decide) (by decide)

/-- C8 counterexample: patient registration does not trim: a whitespace-only
username passes the truthiness check and a users row is created instead of
a field-level error. -/
theorem whitespace_username_counterexample :
    (register emptyDB " " "pw").2 = RegResult.ok ∧
    ((register emptyDB " " "pw").1).users.length = emptyDB.users.length + 1 := by
  constructor <;> decide

/-- C8 amended: admin doctor provisioning (add_doctor) validates the four
fields after trimming and creates no rows on failure; patient registration
and doctor self-registration only test the raw values for emptiness, so
they return a field-level error with no state change exactly when some
required field is empty before trimming (whitespace-only values are
accepted and create rows). -/
theorem required_field_validation_amended (db : DB) (u p name spec n0 s0 du0 dp0 : String)
    (h1 : u = "" ∨ p = "")
    (h2 : u = "" ∨ p = "" ∨ name = "" ∨ spec = "")
    (h3 : pyStrip n0 = "" ∨ pyStrip s0 = "" ∨ pyStrip du0 = "" ∨ pyStrip dp0 = "") :
    register db u p = (db, .fieldErr "Username and password required") ∧
    register_doctor db u p name spec = (db, .fieldErr "All fields required") ∧
    add_doctor db n0 s0 du0 dp0 = (db, .fieldErr "All fields required") := by
  refine ⟨?_, ?_, ?_⟩
  · rw [register, if_pos h1]
  · rw [register_doctor, if_pos h2]
  · rw [add_doctor]
    simp only []
    rw [if_pos h3]

/-- Witness for required_field_validation_amended at concrete inputs. -/
theorem required_field_validation_amended_witness :
    register dbBob "" "pw" = (dbBob, .fieldErr "Username and password required") ∧
    register_doctor dbBob "" "pw" "n" "s" = (dbBob, .fieldErr "All fields required") ∧
    add_doctor dbBob " " "s" "u" "pw" = (dbBob, .fieldErr "All fields required") :=
  required_field_validation_amended dbBob "" "pw" "n" "s" " " "s" "u" "pw"
    (Or.inl rfl) (Or.inl rfl) (Or.inl (by decide))

/-- C10: a session uid matching no users row resolves to no current user,
and every handler wrapped by login_required redirects to the login page
without running its body (the response is independent of the handler and is
never Forbidden). -/
theorem stale_session_redirects (db : DB) (uid : Nat)
    (h : ∀ r ∈ db.users, r.id ≠ uid) :
    current_user db (some uid) = none ∧
    (∀ handler, login_required db (some uid) handler = (db, Resp.redirect "/login")) ∧
    (∀ handler, (login_required db (some uid) handler).2 ≠ Resp.forbidden) := by
  have hcu : current_user db (some uid) = none := by
    rw [current_user]
    by_cases h0 : uid = 0
    · rw [if_pos h0]
    · rw [if_neg h0, List.find?_eq_none]
      intro r hr
      simpa using h r hr
  refine ⟨hcu, ?_, ?_⟩
  · intro handler
    simp [login_required, hcu]
  · intro handler
    simp [login_required, hcu]

/-- Witness for stale_session_redirects at a concrete database. -/
theorem stale_session_redirects_witness :
    current_user dbBob (some 2) = none :=
  (stale_session_redirects dbBob 2 (by decide)).1

/-- C1: a booking submission creates an appointment row iff a doctors row
with the submitted id exists, its availability equals exactly "Available",
and the date string is non-empty; on success exactly one row is appended,
carrying the logged-in patient id, the submitted doctor id and date, and
status "Booked"; otherwise the whole database is unchanged. -/
theorem booking_creates_row_iff (db : DB) (uid D : Nat) (s : String)
    (hnd : (db.doctors.map fun d => d.id).Nodup) :
    ((∃ d ∈ db.doctors, d.id = D ∧ d.availability = "Available") ∧ s ≠ "" →
        patient_post db uid D s
          = { db with appointments := db.appointments ++ [bookedRow db uid D s] }) ∧
    (¬ ((∃ d ∈ db.doctors, d.id = D ∧ d.availability = "Available") ∧ s ≠ "") →
        patient_post db uid D s = db) := by
  constructor
  · rintro ⟨⟨d, hd, hid, hav⟩, hs⟩
    have hfind : db.doctors.find? (fun x => x.id == D) = some d := by
      have h := find?_key_eq (fun x => x.id) db.doctors hnd d hd
      simpa [hid] using h
    rw [patient_post, hfind]
    show (if d.availability = "Available" ∧ s ≠ "" then ({ db with appointments := db.appointments ++ [bookedRow db uid D s] } : DB) else db) = { db with appointments := db.appointments ++ [bookedRow db uid D s] }
    rw [if_pos ⟨hav, hs⟩]
  · intro hneg
    rw [patient_post]
    cases hfind : db.doctors.find? (fun x => x.id == D) with
    | none => rfl
    | some d0 =>
      have hid : d0.id = D := by simpa using List.find?_some hfind
      have hmem := List.mem_of_find?_eq_some hfind
      show (if d0.availability = "Available" ∧ s ≠ "" then ({ db with appointments := db.appointments ++ [bookedRow db uid D s] } : DB) else db) = db
      by_cases hs : s = ""
      · rw [if_neg]
        exact fun hc => hc.2 hs
      · have hav : d0.availability ≠ "Available" :=
          fun hav => hneg ⟨⟨d0, hmem, hid, hav⟩, hs⟩
        rw [if_neg]
        exact fun hc => hav hc.1

/-- Witness for booking_creates_row_iff at a concrete database. -/
theorem booking_creates_row_iff_witness :
    patient_post dbAvail 7 1 "2024-05-01"
      = { dbAvail with appointments := dbAvail.appointments ++ [bookedRow dbAvail 7 1 "2024-05-01"] } :=
  (booking_creates_row_iff dbAvail 7 1 "2024-05-01" (by decide)).1
    ⟨⟨docAnn, by decide, by decide, by decide⟩, by decide⟩

/-- C2: both doctor-issued diagnosis/notes updates (the doctor dashboard
save and the mark-complete flow) keep every row not matching the pair
(appointment id, calling doctor id); when no row matches, the whole
database is unchanged.  Both handlers are total functions into DB, so no
error outcome exists. -/
theorem doctor_update_scoped (db : DB) (docUid aid : Nat) (d0 n0 : String) :
    (∀ a ∈ db.appointments, ¬(a.id = aid ∧ a.doctor_id = docUid) →
        a ∈ (doctor_post db docUid aid d0 n0).appointments ∧
        a ∈ (doc_done db docUid aid d0 n0).appointments) ∧
    ((∀ a ∈ db.appointments, ¬(a.id = aid ∧ a.doctor_id = docUid)) →
        doctor_post db docUid aid d0 n0 = db ∧ doc_done db docUid aid d0 n0 = db) := by
  have hcond : ∀ a : AppointmentRow, ¬(a.id = aid ∧ a.doctor_id = docUid) →
      (a.id == aid && a.doctor_id == docUid) = false := by
    intro a h
    by_cases h1 : a.id = aid
    · by_cases h2 : a.doctor_id = docUid
      · exact absurd ⟨h1, h2⟩ h
      · simp [h2]
    · simp [h1]
  constructor
  · intro a ha h
    have hc := hcond a h
    exact ⟨List.mem_map.mpr ⟨a, ha, by simp [hc]⟩, List.mem_map.mpr ⟨a, ha, by simp [hc]⟩⟩
  · intro h
    have hmap1 : (db.appointments.map fun a =>
        if a.id == aid && a.doctor_id == docUid then
          { a with diagnosis := some (pyStrip d0), notes := some (pyStrip n0) }
        else a) = db.appointments :=
      map_ite_id _ _ _ (fun a ha => hcond a (h a ha))
    have hmap2 : (db.appointments.map fun a =>
        if a.id == aid && a.doctor_id == docUid then
          { a with status := "Completed", diagnosis := some (pyStrip d0), notes := some (pyStrip n0) }
        else a) = db.appointments :=
      map_ite_id _ _ _ (fun a ha => hcond a (h a ha))
    constructor
    · show ({ db with appointments := db.appointments.map fun a =>
          if a.id == aid && a.doctor_id == docUid then
            { a with diagnosis := some (pyStrip d0), notes := some (pyStrip n0) }
          else a } : DB) = db
      rw [hmap1]
    · show ({ db with appointments := db.appointments.map fun a =>
          if a.id == aid && a.doctor_id == docUid then
            { a with status := "Completed", diagnosis := some (pyStrip d0), notes := some (pyStrip n0) }
          else a } : DB) = db
      rw [hmap2]

/-- Witness for doctor_update_scoped: a foreign doctor (id 2) updating
appointment 1 of doctor 1 changes nothing. -/
theorem doctor_update_scoped_witness :
    doctor_post dbOneAppt 2 1 "d" "n" = dbOneAppt ∧ doc_done dbOneAppt 2 1 "d" "n" = dbOneAppt :=
  (doctor_update_scoped dbOneAppt 2 1 "d" "n").2 (by decide)

/-- C3: with an existing username and a wrong password, and with an unknown
username, the login outcomes are the same generic "Invalid credentials"
error, so the response does not reveal whether the username exists. -/
theorem login_no_username_enumeration (db : DB) (u1 p1 u2 p2 : String)
    (hu1 : u1 ≠ "") (hp1 : p1 ≠ "")
    (hexists : ∃ r ∈ db.users, r.username = u1)
    (hwrong : ∀ r ∈ db.users, r.username = u1 → r.password ≠ hash_pwd p1)
    (hu2 : u2 ≠ "") (hp2 : p2 ≠ "")
    (hunknown : ∀ r ∈ db.users, r.username ≠ u2) :
    login db u1 p1 = .err "Invalid credentials" ∧
    login db u2 p2 = .err "Invalid credentials" ∧
    login db u1 p1 = login db u2 p2 := by
  have h1 : db.users.find? (fun r => r.username == u1 && r.password == hash_pwd p1) = none := by
    rw [List.find?_eq_none]
    intro r hr
    simp only [Bool.and_eq_true, beq_iff_eq, not_and]
    exact fun hu => hwrong r hr hu
  have h2 : db.users.find? (fun r => r.username == u2 && r.password == hash_pwd p2) = none := by
    rw [List.find?_eq_none]
    intro r hr
    simp only [Bool.and_eq_true, beq_iff_eq, not_and]
    exact fun hu _ => hunknown r hr hu
  have e1 : login db u1 p1 = .err "Invalid credentials" := by
    rw [login, if_neg (by simp [hu1, hp1]), h1]
  have e2 : login db u2 p2 = .err "Invalid credentials" := by
    rw [login, if_neg (by simp [hu2, hp2]), h2]
  exact ⟨e1, e2, e1.trans e2.symm⟩

/-- Witness for login_no_username_enumeration at a concrete database. -/
theorem login_no_username_enumeration_witness :
    login dbBob "bob" "wrong" = .err "Invalid credentials" ∧
    login dbBob "alice" "pw" = .err "Invalid credentials" ∧
    login dbBob "bob" "wrong" = login dbBob "alice" "pw" :=
  login_no_username_enumeration dbBob "bob" "wrong" "alice" "pw" (by decide) (by decide)
    ⟨userBob, by decide, by decide⟩ (by decide) (by decide) (by decide) (by decide)

/-- C6: every registration entry point submitting an already-taken username
(with all its required fields otherwise present) fails with its
duplicate-username error message and leaves the users table unchanged.
For add_doctor the whole result state keeps the users rows of the input
state (the committed doctors row from the first insert is outside the
users table). -/
theorem duplicate_username_rejected (db : DB) (u p name spec n0 s0 du0 dp0 : String)
    (hu : u ≠ "") (hp : p ≠ "") (hname : name ≠ "") (hspec : spec ≠ "")
    (hdup : ∃ r ∈ db.users, r.username = u)
    (hn0 : pyStrip n0 ≠ "") (hs0 : pyStrip s0 ≠ "") (hdu0 : pyStrip du0 ≠ "")
    (hdp0 : pyStrip dp0 ≠ "")
    (hdup2 : ∃ r ∈ db.users, r.username = pyStrip du0) :
    register db u p = (db, .dupErr "Username taken") ∧
    register_doctor db u p name spec = (db, .dupErr "Username taken") ∧
    ((add_doctor db n0 s0 du0 dp0).2 = .dupErr "Username already exists" ∧
      (add_doctor db n0 s0 du0 dp0).1.users = db.users) := by
  have hany : db.users.any (fun r => r.username == u) = true := by
    rw [List.any_eq_true]
    obtain ⟨r, hr, he⟩ := hdup
    exact ⟨r, hr, by simp [he]⟩
  have hany2 : db.users.any (fun r => r.username == pyStrip du0) = true := by
    rw [List.any_eq_true]
    obtain ⟨r, hr, he⟩ := hdup2
    exact ⟨r, hr, by simp [he]⟩
  refine ⟨?_, ?_, ?_⟩
  · rw [register, if_neg (by simp [hu, hp]), if_pos hany]
  · rw [register_doctor, if_neg (by simp [hu, hp, hname, hspec]), if_pos hany]
  · rw [add_doctor]
    simp only []
    rw [if_neg (by simp [hn0, hs0, hdu0, hdp0])]
    by_cases hcred : db.doctor_credentials.any (fun c => c.username == pyStrip du0) = true
    · rw [if_pos hcred]
      exact ⟨rfl, rfl⟩
    · rw [if_neg hcred, if_pos hany2]
      exact ⟨rfl, rfl⟩

/-- Witness for duplicate_username_rejected at a concrete database. -/
theorem duplicate_username_rejected_witness :
    register dbBob "bob" "x" = (dbBob, .dupErr "Username taken") ∧
    register_doctor dbBob "bob" "x" "Ann" "Cardio" = (dbBob, .dupErr "Username taken") ∧
    ((add_doctor dbBob "Ann" "Cardio" "bob" "zz").2 = .dupErr "Username already exists" ∧
      (add_doctor dbBob "Ann" "Cardio" "bob" "zz").1.users = dbBob.users) :=
  duplicate_username_rejected dbBob "bob" "x" "Ann" "Cardio" "Ann" "Cardio" "bob" "zz"
    (by decide) (by decide) (by decide) (by decide) ⟨userBob, by decide, by decide⟩
    (by decide) (by decide) (by decide) (by decide) ⟨userBob, by decide, by decide⟩

/-- C9 counterexample: the search term "%" is non-empty and stripped, so it
is inside the original claim's scope, yet the handler interpolates it
unescaped into the pattern, running LIKE with three consecutive percent
signs, which matches every row: the Ann/Cardiology doctor is returned even
though neither her name nor her specialization contains "%" as a
(case-insensitive) substring. -/
theorem admin_search_wildcard_counterexample :
    pyStrip "%" = "%" ∧ ("%" : String) ≠ "" ∧
    admin_doctor_search dbAvail "%" = [docAnn] ∧
    ¬ containsCI "%" docAnn.name ∧
    ¬ containsCI "%" docAnn.specialization := by
  refine ⟨by decide, by decide, by decide, fun hc => ?_, fun hc => ?_⟩
  · exact absurd ((containsSub_iff _ _).mpr hc) (by decide)
  · exact absurd ((containsSub_iff _ _).mpr hc) (by decide)

/-- C9 amended: for a non-empty (already-stripped) admin search term that
contains no LIKE wildcard character (no percent sign and no underscore),
the result is exactly the subset of doctors whose name or specialization
contains the term as a case-insensitive substring; the empty term returns
all doctors rows.  (Terms containing a percent sign or an underscore reach
the LIKE pattern unescaped and act as wildcards instead of literals.) -/
theorem admin_doctor_search_spec (db : DB) (t : String) (ht : pyStrip t = t)
    (hw : ∀ c ∈ t.data, c ≠ '%' ∧ c ≠ '_') :
    (t ≠ "" → ∀ d : DoctorRow,
        d ∈ admin_doctor_search db t ↔
          d ∈ db.doctors ∧ (containsCI t d.name ∨ containsCI t d.specialization)) ∧
    (t = "" → admin_doctor_search db t = db.doctors) := by
  constructor
  · intro hne d
    have hsearch : admin_doctor_search db t
        = db.doctors.filter fun x => likeMatchCI t x.name || likeMatchCI t x.specialization := by
      rw [admin_doctor_search]
      simp only [ht]
      rw [if_neg hne]
    rw [hsearch, List.mem_filter, Bool.or_eq_true,
      likeMatchCI_no_wild_iff t d.name hw, likeMatchCI_no_wild_iff t d.specialization hw]
  · intro he
    rw [admin_doctor_search]
    simp only [ht]
    rw [if_pos he]

/-- Witness for admin_doctor_search_spec at a concrete database and a
concrete wildcard-free term. -/
theorem admin_doctor_search_spec_witness :
    (("card" : String) ≠ "" → ∀ d : DoctorRow,
        d ∈ admin_doctor_search dbAvail "card" ↔
          d ∈ dbAvail.doctors ∧ (containsCI "card" d.name ∨ containsCI "card" d.specialization)) ∧
    (("card" : String) = "" → admin_doctor_search dbAvail "card" = dbAvail.doctors) :=
  admin_doctor_search_spec dbAvail "card" (by decide) (by decide)
